import Mathlib

/-!
Shallow embedding of BetterForward's AI spam detector
(`src/utils/spam_detectors/ai_detector.py`) and proofs about its behaviour.

Python values flowing through the detector are JSON-shaped, so they are
modelled by the inductive `JValue`. Machine floats are modelled as rationals;
the non-finite floats (NaN, Infinity) are outside the model. The HTTP and
file-download collaborators are passed to `detect` as explicit functions, and
`detect` additionally returns the list of HTTP requests it issued, making
"no network call" a provable statement.
-/

/-- JSON values as produced by Python `json.loads`. Python ints and floats are
collapsed into the single rational constructor `num`; NaN and Infinity are
outside the model. Object member lists keep duplicates in source order; lookup
takes the last occurrence, matching how `json.loads` builds a dict. -/
inductive JValue where
  | null : JValue
  | bool : Bool → JValue
  | num : ℚ → JValue
  | str : String → JValue
  | arr : List JValue → JValue
  | obj : List (String × JValue) → JValue
deriving Repr

/-- Python truthiness of a JSON-shaped value. -/
def pyTruthy : JValue → Bool
  | .null => false
  | .bool b => b
  | .num q => q != 0
  | .str s => s != ""
  | .arr xs => !xs.isEmpty
  | .obj kvs => !kvs.isEmpty

/-- Lookup in a Python dict built from a JSON object: later duplicate keys
override earlier ones, as in `json.loads`. -/
def objGet (kvs : List (String × JValue)) (k : String) : Option JValue :=
  (kvs.reverse.find? (fun kv => kv.1 == k)).map (fun kv => kv.2)

/-- `dict.get(k)` with Python's `None` default (JSON null). -/
def objGetD (kvs : List (String × JValue)) (k : String) : JValue :=
  (objGet kvs k).getD .null

/-- Python `k in d` on a dict. -/
def objHasKey (kvs : List (String × JValue)) (k : String) : Bool :=
  kvs.any (fun kv => kv.1 == k)

/-- ASCII whitespace recognised by Python `str.strip()` (the full Unicode
whitespace set is outside the model; no claim involves it). -/
def isPyWs (c : Char) : Bool :=
  c == ' ' || c == '\t' || c == '\n' || c == '\r' || c == '\x0b' || c == '\x0c'

/-- Value of a digit string, most significant first. -/
def digitsToNat (cs : List Char) : Nat :=
  cs.foldl (fun n c => n * 10 + (c.toNat - '0'.toNat)) 0

/-- Shared helper: strip characters satisfying p from both ends of a list. -/
def stripBoth (p : Char → Bool) (cs : List Char) : List Char :=
  ((cs.dropWhile p).reverse.dropWhile p).reverse

/-- Optional leading sign of a float literal, with the remaining characters. -/
def readSign : List Char → (ℚ × List Char)
  | '-' :: rest => (-1, rest)
  | '+' :: rest => (1, rest)
  | cs => (1, cs)

/-- Exponent suffix of a Python float literal (after the e/E marker). -/
def applyExp (mant : ℚ) (rest : List Char) : Option ℚ :=
  let (esgn, rest1) := readSign rest
  let ed := rest1.takeWhile Char.isDigit
  let rest2 := rest1.dropWhile Char.isDigit
  if ed.isEmpty || !rest2.isEmpty then none
  else some (if esgn < 0 then mant / 10 ^ digitsToNat ed else mant * 10 ^ digitsToNat ed)

/-- Python `float(s)` on a string: optional surrounding whitespace, optional
sign, digits with optional fractional part and exponent. The special literals
inf/nan and underscore digit separators are outside the model. -/
def pyFloatChars (cs0 : List Char) : Option ℚ :=
  let cs1 := stripBoth isPyWs cs0
  let (sgn, cs2) := readSign cs1
  let ip := cs2.takeWhile Char.isDigit
  let cs3 := cs2.dropWhile Char.isDigit
  let (fp, cs4) :=
    match cs3 with
    | '.' :: rest => (rest.takeWhile Char.isDigit, rest.dropWhile Char.isDigit)
    | _ => (([] : List Char), cs3)
  if ip.isEmpty && fp.isEmpty then none
  else
    let mant : ℚ := sgn * ((digitsToNat (ip ++ fp) : ℚ) / (10 : ℚ) ^ fp.length)
    match cs4 with
    | [] => some mant
    | 'e' :: rest => applyExp mant rest
    | 'E' :: rest => applyExp mant rest
    | _ => none

/-- Python `float(x)` on a JSON-shaped value: bools convert to 0/1, numbers
pass through, strings are parsed as float literals; None, lists and dicts
raise TypeError, modelled as none. -/
def pyFloat : JValue → Option ℚ
  | .null => none
  | .bool b => some (if b then 1 else 0)
  | .num q => some q
  | .str s => pyFloatChars s.data
  | .arr _ => none
  | .obj _ => none

/-- `OpenAISpamDetector._safe_confidence`: float conversion with clamping to
[0,1]; conversion failure (TypeError/ValueError) yields 0.5. -/
def safe_confidence (raw : JValue) : ℚ :=
  match pyFloat raw with
  | none => 1/2
  | some q => max 0 (min q 1)

/-- Whitespace accepted between JSON tokens by `json.loads`. -/
def skipJsonWs (cs : List Char) : List Char :=
  cs.dropWhile (fun c => c == ' ' || c == '\t' || c == '\n' || c == '\r')

/-- Value of a hex digit, if any. -/
def hexVal (c : Char) : Option Nat :=
  if '0' ≤ c ∧ c ≤ '9' then some (c.toNat - '0'.toNat)
  else if 'a' ≤ c ∧ c ≤ 'f' then some (c.toNat - 'a'.toNat + 10)
  else if 'A' ≤ c ∧ c ≤ 'F' then some (c.toNat - 'A'.toNat + 10)
  else none

/-- Body of a JSON string after the opening quote, handling the JSON escape
sequences. Surrogate-pair combination for u-escapes is outside the model
(`Char.ofNat` maps invalid scalar values to the null character). -/
def parseJsonStringBody : Nat → List Char → Option (String × List Char)
  | 0, _ => none
  | Nat.succ fuel, cs =>
    match cs with
    | [] => none
    | '"' :: rest => some ("", rest)
    | '\\' :: esc :: rest =>
      let cont (c : Char) (rs : List Char) : Option (String × List Char) :=
        (parseJsonStringBody fuel rs).map (fun p => (String.mk (c :: p.1.data), p.2))
      if esc = '"' then cont '"' rest
      else if esc = '\\' then cont '\\' rest
      else if esc = '/' then cont '/' rest
      else if esc = 'b' then cont '\x08' rest
      else if esc = 'f' then cont '\x0c' rest
      else if esc = 'n' then cont '\n' rest
      else if esc = 'r' then cont '\r' rest
      else if esc = 't' then cont '\t' rest
      else if esc = 'u' then
        match rest with
        | a :: b :: c :: d :: rest2 =>
          match hexVal a, hexVal b, hexVal c, hexVal d with
          | some ha, some hb, some hc, some hd =>
            cont (Char.ofNat (((ha * 16 + hb) * 16 + hc) * 16 + hd)) rest2
          | _, _, _, _ => none
        | _ => none
      else none
    | c :: rest =>
      if c.toNat < 0x20 then none
      else (parseJsonStringBody fuel rest).map (fun p => (String.mk (c :: p.1.data), p.2))

/-- A JSON number per the strict `json.loads` grammar: optional minus, an
integer part without leading zeros, optional fraction and exponent. A longer
digit run after a leading zero simply ends the number, as in CPython's regex;
the caller then rejects the leftover. -/
def parseJsonNumber (cs : List Char) : Option (ℚ × List Char) :=
  let (neg, cs1) := match cs with
    | '-' :: r => (true, r)
    | _ => (false, cs)
  let (ip, cs2) : List Char × List Char :=
    match cs1 with
    | '0' :: r => (['0'], r)
    | _ => (cs1.takeWhile Char.isDigit, cs1.dropWhile Char.isDigit)
  if ip.isEmpty then none
  else
    let (fp, cs3) : List Char × List Char :=
      match cs2 with
      | '.' :: r =>
        if (r.takeWhile Char.isDigit).isEmpty then (([] : List Char), cs2)
        else (r.takeWhile Char.isDigit, r.dropWhile Char.isDigit)
      | _ => (([] : List Char), cs2)
    let mant : ℚ := (if neg then (-1 : ℚ) else 1) * ((digitsToNat (ip ++ fp) : ℚ) / (10 : ℚ) ^ fp.length)
    let expPart : Option (ℚ × List Char) :=
      match cs3 with
      | e :: r =>
        if e == 'e' || e == 'E' then
          let (esgn, r1) := readSign r
          let ed := r1.takeWhile Char.isDigit
          let r2 := r1.dropWhile Char.isDigit
          if ed.isEmpty then some (mant, cs3)
          else some ((if esgn < 0 then mant / 10 ^ digitsToNat ed else mant * 10 ^ digitsToNat ed), r2)
        else some (mant, cs3)
      | [] => some (mant, cs3)
    expPart

/-- Which production the JSON parser is currently reading: a single value, the
items of a non-empty array body, or the members of a non-empty object body. -/
inductive JMode where
  | value : JMode
  | items : JMode
  | members : JMode

/-- Result of one parser step, matching the three productions of `JMode`. -/
inductive JOut where
  | val : JValue → JOut
  | items : List JValue → JOut
  | members : List (String × JValue) → JOut

/-- Recursive core of the strict `json.loads` grammar, fuel-indexed so that it
is structurally recursive (and hence evaluates by kernel reduction). Leading
whitespace is allowed before each token. -/
def parseJ : Nat → JMode → List Char → Option (JOut × List Char)
  | 0, _, _ => none
  | Nat.succ fuel, .value, cs0 =>
    (match skipJsonWs cs0 with
     | [] => none
     | '{' :: rest =>
       (match skipJsonWs rest with
        | '}' :: rest2 => some (.val (.obj []), rest2)
        | rest1 =>
          match parseJ fuel .members rest1 with
          | some (.members ps, r) => some (.val (.obj ps), r)
          | _ => none)
     | '[' :: rest =>
       (match skipJsonWs rest with
        | ']' :: rest2 => some (.val (.arr []), rest2)
        | rest1 =>
          match parseJ fuel .items rest1 with
          | some (.items vs, r) => some (.val (.arr vs), r)
          | _ => none)
     | '"' :: rest => (parseJsonStringBody (rest.length + 1) rest).map (fun p => (JOut.val (.str p.1), p.2))
     | cs =>
       if ("true".data).isPrefixOf cs then some (.val (.bool true), cs.drop 4)
       else if ("false".data).isPrefixOf cs then some (.val (.bool false), cs.drop 5)
       else if ("null".data).isPrefixOf cs then some (.val .null, cs.drop 4)
       else (parseJsonNumber cs).map (fun p => (JOut.val (.num p.1), p.2)))
  | Nat.succ fuel, .items, cs =>
    (match parseJ fuel .value cs with
     | some (.val v, rest) =>
       (match skipJsonWs rest with
        | ',' :: rest2 =>
          (match parseJ fuel .items rest2 with
           | some (.items vs, r) => some (.items (v :: vs), r)
           | _ => none)
        | ']' :: rest2 => some (.items [v], rest2)
        | _ => none)
     | _ => none)
  | Nat.succ fuel, .members, cs =>
    (match skipJsonWs cs with
     | '"' :: rest =>
       (match parseJsonStringBody (rest.length + 1) rest with
        | none => none
        | some (k, rest1) =>
          match skipJsonWs rest1 with
          | ':' :: rest2 =>
            (match parseJ fuel .value rest2 with
             | some (.val v, rest3) =>
               (match skipJsonWs rest3 with
                | ',' :: rest4 =>
                  (match parseJ fuel .members rest4 with
                   | some (.members ps, r) => some (.members ((k, v) :: ps), r)
                   | _ => none)
                | '}' :: rest4 => some (.members [(k, v)], rest4)
                | _ => none)
             | _ => none)
          | _ => none)
     | _ => none)

/-- One JSON value with its unconsumed input. -/
def parseJValue (fuel : Nat) (cs : List Char) : Option (JValue × List Char) :=
  match parseJ fuel .value cs with
  | some (.val v, r) => some (v, r)
  | _ => none

/-- Python `json.loads`: parse one complete JSON document; leftover non-space
input is a JSONDecodeError, modelled as none. -/
def jsonLoads (s : String) : Option JValue :=
  match parseJValue (s.data.length + 1) s.data with
  | some (v, rest) => if (skipJsonWs rest).isEmpty then some v else none
  | none => none

/-- Python `s.split(sep)` for a single-character separator. -/
def splitOnChar (sep : Char) : List Char → List (List Char)
  | [] => [[]]
  | c :: rest =>
    if c == sep then [] :: splitOnChar sep rest
    else
      match splitOnChar sep rest with
      | [] => [[c]]
      | g :: gs => (c :: g) :: gs

/-- Python `sep.join(groups)` for a single-character separator. -/
def joinChar (sep : Char) : List (List Char) → List Char
  | [] => []
  | [g] => g
  | g :: gs => g ++ sep :: joinChar sep gs

/-- Tail of `OpenAISpamDetector._extract_content` once the content is known to
be a string: `strip()`, then unwrap an optional fenced code block by stripping
every leading/trailing backtick and dropping the first line (the language
tag) when a newline remains. -/
def postProcessContent (s : String) : String :=
  let stripped := stripBoth isPyWs s.data
  if ("```".data).isPrefixOf stripped then
    let stripped2 := stripBoth (fun c => c == '`') stripped
    if stripped2.contains '\n' then
      String.mk (joinChar '\n' ((splitOnChar '\n' stripped2).drop 1))
    else String.mk stripped2
  else String.mk stripped

/-- Python `str()` of a JSON-shaped value. Strings, booleans and None are
exact; the rendering of numbers and containers only approximates Python's
(floats are shown as fractions), which no claim depends on: the detector
applies this only to text parts of a provider response. -/
def pyStr : JValue → String
  | .null => "None"
  | .bool true => "True"
  | .bool false => "False"
  | .num q => if q.den = 1 then toString q.num else toString q.num ++ "/" ++ toString q.den
  | .str s => s
  | .arr _ => "[...]"
  | .obj _ => "\x7b...\x7d"

/-- Telegram PhotoSize: only the file id matters to the detector. -/
structure PhotoSize where
  file_id : String
deriving Repr, DecidableEq

/-- Telegram Document: file id and optional declared MIME type. -/
structure Document where
  file_id : String
  mime_type : Option String
deriving Repr, DecidableEq

/-- The slice of a Telegram Message the detector reads. Python's None and the
empty list are both falsy for photo, so an absent photo list is modelled as
[]; text and caption distinguish None from the empty string. -/
structure Message where
  text : Option String
  caption : Option String
  photo : List PhotoSize
  document : Option Document
deriving Repr, DecidableEq

/-- Python truthiness of an optional string (None and "" are falsy). -/
def truthyOptStr : Option String → Bool
  | none => false
  | some s => s != ""

/-- True when a document carries a truthy MIME type starting with `image/`. -/
def docIsImage (doc : Document) : Bool :=
  match doc.mime_type with
  | none => false
  | some m => m != "" && m.startsWith "image/"

/-- `OpenAISpamDetector._has_images`. -/
def has_images (msg : Message) : Bool :=
  !msg.photo.isEmpty ||
    (match msg.document with
     | none => false
     | some doc => docIsImage doc)

/-- The guard `message.text or message.caption or self._has_images(message)`
from `detect`. -/
def messageHasContent (msg : Message) : Bool :=
  truthyOptStr msg.text || truthyOptStr msg.caption || has_images msg

/-- Python `message.text or message.caption or ""` from `detect`. -/
def pyUserText (msg : Message) : String :=
  if truthyOptStr msg.text then msg.text.getD ""
  else if truthyOptStr msg.caption then msg.caption.getD ""
  else ""

/-- Alphabet of standard base64. -/
def base64Alphabet : List Char :=
  "ABCDEFGHIJKLMNOPQRSTUVWXYZabcdefghijklmnopqrstuvwxyz0123456789+/".data

/-- Character for a 6-bit group. -/
def b64Char (n : Nat) : Char := (base64Alphabet.drop n).headD 'A'

/-- Standard base64 of a byte list, as produced by `base64.b64encode`. -/
def base64EncodeChars : List Nat → List Char
  | [] => []
  | [b1] => [b64Char (b1 / 4), b64Char (b1 % 4 * 16), '=', '=']
  | [b1, b2] => [b64Char (b1 / 4), b64Char (b1 % 4 * 16 + b2 / 16), b64Char (b2 % 16 * 4), '=']
  | b1 :: b2 :: b3 :: rest =>
    b64Char (b1 / 4) :: b64Char (b1 % 4 * 16 + b2 / 16) :: b64Char (b2 % 16 * 4 + b3 / 64) ::
      b64Char (b3 % 64) :: base64EncodeChars rest

/-- `OpenAISpamDetector._to_image_part`: wrap image bytes as an inline
image_url block with a base64 data URL. `mimetypes.guess_type("file")` yields
no type (the name has no extension), so a falsy mime_type falls through to
image/jpeg. -/
def to_image_part (data : List Nat) (mime_type : Option String) : JValue :=
  let guessed :=
    match mime_type with
    | some m => if m == "" then "image/jpeg" else m
    | none => "image/jpeg"
  .obj [("type", .str "image_url"),
        ("image_url", .obj [("url", .str ("data:" ++ guessed ++ ";base64," ++ String.mk (base64EncodeChars data)))])]

/-- The bot collaborator as the detector observes it: `_download_file` catches
every exception from get_file/download_file and returns None on failure, so a
fetch maps a file id to the downloaded bytes or none. -/
abbrev FileFetch := String → Option (List Nat)

/-- `OpenAISpamDetector._extract_image_parts`: photos use the last (highest
resolution) entry with MIME image/jpeg; image documents use their declared
MIME type; failed downloads are logged and omitted. Without a bot no image is
fetched. -/
def extract_image_parts (bot : Option FileFetch) (msg : Message) : List JValue :=
  match bot with
  | none => []
  | some fetch =>
    (match msg.photo.getLast? with
     | none => []
     | some p =>
       match fetch p.file_id with
       | none => []
       | some data => [to_image_part data (some "image/jpeg")]) ++
    (match msg.document with
     | none => []
     | some doc =>
       if docIsImage doc then
         match fetch doc.file_id with
         | none => []
         | some data => [to_image_part data doc.mime_type]
       else [])

/-- The system prompt text of `_build_messages`. -/
def system_text : String :=
  "You are a strict spam filter for a Telegram relay bot. Return JSON with fields: spam (boolean), confidence (0-1), reason (short text). Mark spam when the message or attached images are unsolicited ads, phishing, scams, or mass promotion. Only return the JSON object. Do not return any other text."

/-- The image-only placeholder text of `_build_messages`. -/
def placeholder_text : String :=
  "No user text was provided. Review only the attached images for spam."

/-- A single OpenAI text block, as produced by `_as_blocks`. -/
def textBlock (t : String) : JValue :=
  .obj [("type", .str "text"), ("text", .str t)]

/-- `OpenAISpamDetector._build_messages`. -/
def build_messages (user_text : String) (image_parts : List JValue) : JValue :=
  let user_blocks :=
    (if user_text != "" then [textBlock user_text] else [textBlock placeholder_text]) ++ image_parts
  .arr [.obj [("role", .str "system"), ("content", .arr [textBlock system_text])],
        .obj [("role", .str "user"), ("content", .arr user_blocks)]]

/-- Configuration state of an `OpenAISpamDetector` after `__init__` (the base
URL is stored right-stripped of '/'). -/
structure OpenAISpamDetector where
  api_key : String
  base_url : String
  model : String := "gpt-3.5-turbo"
  threshold : ℚ := 1/2
  request_timeout : ℚ := 15
deriving Repr, DecidableEq

/-- Python `str.rstrip("/")`. -/
def rstripSlash (s : String) : String :=
  String.mk ((s.data.reverse.dropWhile (fun c => c == '/')).reverse)

/-- `OpenAISpamDetector.__init__`. -/
def OpenAISpamDetector.init (api_key base_url model : String) (threshold request_timeout : ℚ) :
    OpenAISpamDetector :=
  { api_key := api_key, base_url := rstripSlash base_url, model := model,
    threshold := threshold, request_timeout := request_timeout }

/-- `OpenAISpamDetector.get_name`. -/
def OpenAISpamDetector.get_name (_d : OpenAISpamDetector) : String := "AI Detector"

/-- A detection context: the Python `Optional[dict]`, with JSON-shaped
values. -/
abbrev Ctx := List (String × JValue)

/-- `OpenAISpamDetector.is_enabled`: blank credentials disable; a truthy
(non-empty) context dict whose enable_ai entry is the boolean False disables
(the code checks identity, `is False`); otherwise enabled. -/
def OpenAISpamDetector.is_enabled (d : OpenAISpamDetector) (ctx : Option Ctx) : Bool :=
  if d.api_key == "" || d.base_url == "" then false
  else
    match ctx with
    | none => true
    | some kvs =>
      if kvs.isEmpty then true
      else
        match objGet kvs "enable_ai" with
        | some (.bool false) => false
        | _ => true

/-- Python `x.get(k)` on a JSON-shaped value: none models the AttributeError
raised when x is not a dict; `some .null` is Python returning None for an
absent key. -/
def pyGet : JValue → String → Option JValue
  | .obj kvs, k => some (objGetD kvs k)
  | _, _ => none

/-- Python `x[0]` as applied to the truthy choices value: lists yield their
first element and strings their first character (as a one-character string);
everything else raises, modelled as none (the caller catches). -/
def pyIndexZero : JValue → Option JValue
  | .arr (x :: _) => some x
  | .arr [] => none
  | .str s =>
    (match s.data with
     | [] => none
     | c :: _ => some (.str (String.mk [c])))
  | _ => none

/-- The texts collected from a list-shaped `message.content`: a dict part with
a "text" key contributes `str(part["text"])`, else one with a "content" key
contributes `str(part["content"])`; any other part is skipped. -/
def collectPartTexts (parts : List JValue) : List String :=
  parts.filterMap (fun part =>
    match part with
    | .obj kvs =>
      if objHasKey kvs "text" then some (pyStr (objGetD kvs "text"))
      else if objHasKey kvs "content" then some (pyStr (objGetD kvs "content"))
      else none
    | _ => none)

/-- `OpenAISpamDetector._extract_content` applied to an already-JSON-decoded
response body; every exception inside the extraction is caught and becomes
none. -/
def extractContentJ (data : JValue) : Option String :=
  match pyGet data "choices" with
  | none => none
  | some choicesRaw =>
    let choices := if pyTruthy choicesRaw then choicesRaw else .arr []
    if !pyTruthy choices then none
    else
      match pyIndexZero choices with
      | none => none
      | some choice =>
        match choice with
        | .obj ckvs =>
          let msgRaw := objGetD ckvs "message"
          let message := if pyTruthy msgRaw then msgRaw else .obj []
          (match pyGet message "content" with
           | none => none
           | some content0 =>
             let content1 :=
               match content0 with
               | .arr parts =>
                 (match collectPartTexts parts with
                  | [] => JValue.null
                  | ts => .str (String.intercalate "\n" ts))
               | v => v
             let content2 :=
               match content1 with
               | .null =>
                 let a := objGetD ckvs "content"
                 if pyTruthy a then a else objGetD ckvs "text"
               | v => v
             match content2 with
             | .str s => some (postProcessContent s)
             | _ => none)
        | _ => none

/-- `OpenAISpamDetector._extract_content` from the raw response body text:
`response.json()` followed by the shape-tolerant extraction; invalid JSON and
every other exception become none. -/
def extractContent (body : String) : Option String :=
  match jsonLoads body with
  | none => none
  | some data => extractContentJ data

/-- The evidence dict returned with a positive AI verdict. -/
structure Evidence where
  method : String
  detector : String
  confidence : ℚ
  reason : JValue
deriving Repr

/-- The uncaught Python exception `detect` can raise: `result.get` on a value
that is not a dict. -/
inductive PyExn where
  | attributeError : PyExn
deriving Repr, DecidableEq

/-- The HTTP POST issued by `detect`: endpoint, Authorization header, and the
JSON body fields, including the configured timeout. -/
structure HttpRequest where
  url : String
  auth_header : String
  model : String
  temperature : ℚ
  messages : JValue
  timeout : ℚ
deriving Repr

/-- The single HTTP request `detect` builds for a message. -/
def mkRequest (d : OpenAISpamDetector) (msg : Message) (bot : Option FileFetch) : HttpRequest :=
  { url := d.base_url ++ "/chat/completions"
    auth_header := "Bearer " ++ d.api_key
    model := d.model
    temperature := 0
    messages := build_messages (pyUserText msg) (extract_image_parts bot msg)
    timeout := d.request_timeout }

/-- `OpenAISpamDetector.detect`. The HTTP collaborator maps the request to
either an exception (transport error, timeout, or `raise_for_status` on a
non-2xx reply; all are caught) or the body text of a success reply. The second
component records the requests actually issued. The detect code catches only
JSONDecodeError around `json.loads(content)`, so when the content is valid
JSON that is not an object, `result.get("spam")` raises AttributeError to the
caller; that is the `.error` outcome. -/
def detect (d : OpenAISpamDetector) (msg : Message) (ctx : Option Ctx)
    (bot : Option FileFetch) (http : HttpRequest → Except Unit String) :
    Except PyExn (Bool × Option Evidence) × List HttpRequest :=
  if !d.is_enabled ctx then (.ok (false, none), [])
  else if !messageHasContent msg then (.ok (false, none), [])
  else
    let req := mkRequest d msg bot
    match http req with
    | .error _ => (.ok (false, none), [req])
    | .ok body =>
      match extractContent body with
      | none => (.ok (false, none), [req])
      | some content =>
        match jsonLoads content with
        | none => (.ok (false, none), [req])
        | some (.obj kvs) =>
          let spam_flag := pyTruthy (objGetD kvs "spam")
          let confidence := safe_confidence (objGetD kvs "confidence")
          if spam_flag ∧ d.threshold ≤ confidence then
            (.ok (true, some { method := "ai", detector := d.get_name,
                               confidence := confidence, reason := objGetD kvs "reason" }), [req])
          else (.ok (false, none), [req])
        | some _ => (.error .attributeError, [req])

/-- A response body whose choices[0].message.content is the given string. -/
def respWithContent (s : String) : JValue :=
  .obj [("choices", .arr [.obj [("message", .obj [("content", .str s)])]])]

/-- A response body whose choices[0].message.content is the given value. -/
def respWithContentVal (v : JValue) : JValue :=
  .obj [("choices", .arr [.obj [("message", .obj [("content", v)])]])]

/-- A detector with valid credentials and default model/threshold/timeout. -/
def dGood : OpenAISpamDetector :=
  { api_key := "k", base_url := "https://api.example.com/v1" }

/-- A text-only message. -/
def msgHello : Message :=
  { text := some "hello", caption := none, photo := [], document := none }

/-- A message with no text, no caption and no image attachment. -/
def msgEmpty : Message :=
  { text := none, caption := none, photo := [], document := none }

/-- A message carrying only a photo attachment. -/
def msgPhotoOnly : Message :=
  { text := none, caption := none, photo := [{ file_id := "p1" }], document := none }

/-- A message with two image attachments (a photo and an image document) and
no text. -/
def msgTwoImages : Message :=
  { text := none, caption := none, photo := [{ file_id := "p1" }],
    document := some { file_id := "d1", mime_type := some "image/png" } }

/-- A fetch collaborator that can download the document but fails on the
photo. -/
def fetchDocOnly : FileFetch :=
  fun id => if id == "d1" then some [1, 2, 3] else none

/-- A 200 response body whose extracted content is "5": valid JSON that is
not an object. -/
def intContentBody : String :=
  "\x7b\"choices\": [\x7b\"message\": \x7b\"content\": \"5\"\x7d\x7d]\x7d"

/-- An HTTP collaborator answering 200 with `intContentBody`. -/
def httpIntContent : HttpRequest → Except Unit String :=
  fun _ => .ok intContentBody

/-- A 200 response body carrying a clean spam verdict with confidence 0.9. -/
def spamAdBody : String :=
  "\x7b\"choices\": [\x7b\"message\": \x7b\"content\": \"\x7b\\\"spam\\\": true, \\\"confidence\\\": 0.9, \\\"reason\\\": \\\"ad\\\"\x7d\"\x7d\x7d]\x7d"

/-- An HTTP collaborator answering 200 with `spamAdBody`. -/
def httpSpamAd : HttpRequest → Except Unit String :=
  fun _ => .ok spamAdBody

/-- A 200 response body whose verdict carries a non-boolean truthy spam field
(the string "no") and confidence 0.9. -/
def nonBoolSpamBody : String :=
  "\x7b\"choices\": [\x7b\"message\": \x7b\"content\": \"\x7b\\\"spam\\\": \\\"no\\\", \\\"confidence\\\": 0.9\x7d\"\x7d\x7d]\x7d"

/-- An HTTP collaborator answering 200 with `nonBoolSpamBody`. -/
def httpTruthyNonBool : HttpRequest → Except Unit String :=
  fun _ => .ok nonBoolSpamBody

/-- The example unfenced JSON object of the round-trip claim, as text. -/
def exBody : String :=
  "\x7b\"spam\": true, \"confidence\": 0.9, \"reason\": \"ad\"\x7d"

/-- The example unfenced JSON object of the round-trip claim, as a value. -/
def exJson : JValue :=
  .obj [("spam", .bool true), ("confidence", .num (9/10)), ("reason", .str "ad")]

/-- Core lemma: when the detector is eligible, the message is non-empty, the
HTTP reply is a success whose extracted content parses as a JSON object, then
detect reaches the final threshold decision of lines 83-94. -/
theorem detect_obj_result (d : OpenAISpamDetector) (msg : Message) (ctx : Option Ctx)
    (bot : Option FileFetch) (http : HttpRequest → Except Unit String)
    (body content : String) (kvs : List (String × JValue))
    (hen : d.is_enabled ctx = true) (hmc : messageHasContent msg = true)
    (hhttp : http (mkRequest d msg bot) = Except.ok body)
    (hext : extractContent body = some content)
    (hjson : jsonLoads content = some (JValue.obj kvs)) :
    detect d msg ctx bot http =
      (Except.ok
        (if pyTruthy (objGetD kvs "spam") ∧ d.threshold ≤ safe_confidence (objGetD kvs "confidence")
         then (true, some { method := "ai", detector := d.get_name,
                            confidence := safe_confidence (objGetD kvs "confidence"),
                            reason := objGetD kvs "reason" })
         else (false, none)),
       [mkRequest d msg bot]) := by
  simp only [detect, hen, hmc, hhttp, hext, hjson, Bool.not_true, Bool.false_eq_true, if_false]
  split <;> rfl

/-- C1: the claim states that detect never raises and maps every internal
failure to a (false, none) verdict for every possible HTTP response body,
including bodies whose extracted content parses as JSON that is not an
object. The code violates this: only JSONDecodeError is caught around
json.loads, so when the extracted content is the valid non-object JSON "5",
result.get("spam") raises an uncaught AttributeError. This theorem evaluates
the embedded code at that failing input. -/
theorem ai_detect_nonobject_json_raises :
    extractContent intContentBody = some "5" ∧
    jsonLoads "5" = some (JValue.num 5) ∧
    (detect dGood msgHello none none httpIntContent).1 = Except.error PyExn.attributeError := by
  refine ⟨by with_unfolding_all rfl, by with_unfolding_all rfl, by with_unfolding_all rfl⟩

/-- C2: for every successfully extracted and JSON-parsed object response,
detect returns a positive verdict with evidence method "ai", the detector
name, the clamped confidence and the reason, exactly when the parsed spam
flag is true and the clamped confidence reaches the threshold; in every other
case it returns (false, none). -/
theorem ai_detect_threshold_verdict (d : OpenAISpamDetector) (msg : Message) (ctx : Option Ctx)
    (bot : Option FileFetch) (http : HttpRequest → Except Unit String)
    (body content : String) (kvs : List (String × JValue))
    (hen : d.is_enabled ctx = true) (hmc : messageHasContent msg = true)
    (hhttp : http (mkRequest d msg bot) = Except.ok body)
    (hext : extractContent body = some content)
    (hjson : jsonLoads content = some (JValue.obj kvs)) :
    ((pyTruthy (objGetD kvs "spam") = true ∧ d.threshold ≤ safe_confidence (objGetD kvs "confidence")) →
       (detect d msg ctx bot http).1 =
         Except.ok (true, some { method := "ai", detector := d.get_name,
                                 confidence := safe_confidence (objGetD kvs "confidence"),
                                 reason := objGetD kvs "reason" })) ∧
    (¬ (pyTruthy (objGetD kvs "spam") = true ∧ d.threshold ≤ safe_confidence (objGetD kvs "confidence")) →
       (detect d msg ctx bot http).1 = Except.ok (false, none)) := by
  have hd := detect_obj_result d msg ctx bot http body content kvs hen hmc hhttp hext hjson
  constructor
  · intro h; rw [hd]; simp only [if_pos h]
  · intro h; rw [hd]; simp only [if_neg h]

/-- C2 witness: the clean spam reply with confidence 0.9 against the default
threshold 0.5 yields a positive verdict with the expected evidence. -/
theorem ai_detect_threshold_verdict_witness :
    (detect dGood msgHello none none httpSpamAd).1 =
      Except.ok (true, some { method := "ai", detector := "AI Detector",
                              confidence := 9/10, reason := JValue.str "ad" }) := by
  have h := (ai_detect_threshold_verdict dGood msgHello none none httpSpamAd
    spamAdBody exBody
    [("spam", JValue.bool true), ("confidence", JValue.num (9/10)), ("reason", JValue.str "ad")]
    (by with_unfolding_all rfl) (by with_unfolding_all rfl) (by with_unfolding_all rfl)
    (by with_unfolding_all rfl) (by with_unfolding_all rfl)).1
    (by with_unfolding_all decide)
  exact h.trans (by with_unfolding_all rfl)

/-- C3: is_enabled is false when the API key or the base URL is blank, false
when the context explicitly maps enable_ai to the boolean False, and true
otherwise; an absent context is no override. -/
theorem ai_is_enabled_spec (d : OpenAISpamDetector) (ctx : Option Ctx) :
    d.is_enabled ctx = true ↔
      (d.api_key ≠ "" ∧ d.base_url ≠ "" ∧
        ∀ kvs, ctx = some kvs → objGet kvs "enable_ai" ≠ some (JValue.bool false)) := by
  unfold OpenAISpamDetector.is_enabled
  cases ctx with
  | none => simp
  | some kvs =>
    by_cases hk : d.api_key = "" <;> by_cases hb : d.base_url = "" <;>
      simp [hk, hb] <;>
      cases hg : objGet kvs "enable_ai" with
      | none => simp [List.isEmpty_iff]
      | some v =>
        cases v <;> simp [List.isEmpty_iff] <;>
        rename_i b <;> cases b <;> simp <;>
        intro he <;> rw [he] at hg <;> simp [objGet] at hg

/-- C3 witness: valid credentials with no context are enabled; an explicit
enable_ai False context disables; blank credentials disable. -/
theorem ai_is_enabled_spec_witness :
    dGood.is_enabled none = true ∧
    dGood.is_enabled (some [("enable_ai", JValue.bool false)]) = false ∧
    OpenAISpamDetector.is_enabled { api_key := "", base_url := "https://x" } none = false := by
  refine ⟨(ai_is_enabled_spec dGood none).mpr ⟨by decide, by decide, fun kvs h => by cases h⟩, ?_, ?_⟩
  · have := (ai_is_enabled_spec dGood (some [("enable_ai", JValue.bool false)]))
    cases he : dGood.is_enabled (some [("enable_ai", JValue.bool false)]) with
    | false => rfl
    | true =>
      exact absurd ((this.mp he).2.2 _ rfl) (by simp [objGet])
  · have := (ai_is_enabled_spec { api_key := "", base_url := "https://x" } none)
    cases he : OpenAISpamDetector.is_enabled { api_key := "", base_url := "https://x" } none with
    | false => rfl
    | true => exact absurd (this.mp he).1 (by simp)

/-- C4: the confidence placed in evidence always lies in the interval from 0
to 1: numeric values are clamped to the nearest bound, and values float()
rejects (None, missing, containers, unparsable strings) yield exactly 0.5. -/
theorem ai_safe_confidence_clamped (v : JValue) :
    (0 ≤ safe_confidence v ∧ safe_confidence v ≤ 1) ∧
    (∀ q : ℚ, pyFloat v = some q →
      (q < 0 → safe_confidence v = 0) ∧
      (1 < q → safe_confidence v = 1) ∧
      (0 ≤ q → q ≤ 1 → safe_confidence v = q)) ∧
    (pyFloat v = none → safe_confidence v = 1/2) := by
  unfold safe_confidence
  cases h : pyFloat v with
  | none =>
    refine ⟨⟨?_, ?_⟩, ?_, fun _ => rfl⟩
    · show (0 : ℚ) ≤ 1/2
      norm_num
    · show (1/2 : ℚ) ≤ 1
      norm_num
    · intro q hq
      exact absurd hq (by simp)
  | some q =>
    simp only [Option.some.injEq, forall_eq']
    refine ⟨⟨le_max_left _ _, max_le (by norm_num) (min_le_right _ _)⟩, ?_, by simp⟩
    refine ⟨fun hq => ?_, fun hq => ?_, fun hq0 hq1 => ?_⟩
    · rw [min_eq_left (by linarith), max_eq_left (by linarith)]
    · rw [min_eq_right (by linarith), max_eq_right (by norm_num)]
    · rw [min_eq_left hq1, max_eq_right hq0]

/-- C4 witness: the numeric value 5 is clamped to 1, the numeric value -3 to
0, and Python None (a missing confidence) yields exactly 0.5. -/
theorem ai_safe_confidence_clamped_witness :
    safe_confidence (JValue.num 5) = 1 ∧
    safe_confidence (JValue.num (-3)) = 0 ∧
    safe_confidence JValue.null = 1/2 := by
  refine ⟨((ai_safe_confidence_clamped (JValue.num 5)).2.1 5 rfl).2.1 (by norm_num),
          ((ai_safe_confidence_clamped (JValue.num (-3))).2.1 (-3) rfl).1 (by norm_num),
          (ai_safe_confidence_clamped JValue.null).2.2 rfl⟩

/-- C5: a message whose text and caption are falsy and which carries no image
attachment makes detect return (false, none) with no HTTP request issued;
likewise whenever the detector is not eligible. -/
theorem ai_detect_empty_or_disabled_no_request (d : OpenAISpamDetector) (msg : Message)
    (ctx : Option Ctx) (bot : Option FileFetch) (http : HttpRequest → Except Unit String) :
    (truthyOptStr msg.text = false → truthyOptStr msg.caption = false → has_images msg = false →
       detect d msg ctx bot http = (Except.ok (false, none), [])) ∧
    (d.is_enabled ctx = false → detect d msg ctx bot http = (Except.ok (false, none), [])) := by
  constructor
  · intro h1 h2 h3
    have hmc : messageHasContent msg = false := by
      simp [messageHasContent, h1, h2, h3]
    by_cases he : d.is_enabled ctx <;> simp [detect, he, hmc]
  · intro he
    simp [detect, he]

/-- C5 witness: the empty message short-circuits with no request, and a
blank-key detector short-circuits on a non-empty message. -/
theorem ai_detect_empty_or_disabled_no_request_witness :
    detect dGood msgEmpty none none httpSpamAd = (Except.ok (false, none), []) ∧
    detect { api_key := "", base_url := "https://x" } msgHello none none httpSpamAd
      = (Except.ok (false, none), []) := by
  refine ⟨(ai_detect_empty_or_disabled_no_request dGood msgEmpty none none httpSpamAd).1 rfl rfl rfl,
          (ai_detect_empty_or_disabled_no_request _ msgHello none none httpSpamAd).2 (by decide)⟩

/-- C6 counterexample: the claim states that a non-boolean spam field never by
itself produces a positive verdict; but the code reads the flag with bool()
truthiness, so the non-boolean truthy string "no" with confidence 0.9 yields
a positive verdict. -/
theorem ai_spam_flag_nonbool_counterexample :
    extractContent nonBoolSpamBody = some "\x7b\"spam\": \"no\", \"confidence\": 0.9\x7d" ∧
    jsonLoads "\x7b\"spam\": \"no\", \"confidence\": 0.9\x7d"
      = some (JValue.obj [("spam", JValue.str "no"), ("confidence", JValue.num (9/10))]) ∧
    (detect dGood msgHello none none httpTruthyNonBool).1 =
      Except.ok (true, some { method := "ai", detector := "AI Detector",
                              confidence := 9/10, reason := JValue.null }) := by
  refine ⟨by with_unfolding_all rfl, by with_unfolding_all rfl, by with_unfolding_all rfl⟩

/-- C6 amended: the spam field is read with Python truthiness, not as a
strict boolean: a falsy or absent value (False, None, 0, empty string, empty
containers) yields a negative verdict, while any truthy value, boolean or
not, combined with sufficient confidence yields a positive verdict. -/
theorem ai_spam_flag_truthiness (d : OpenAISpamDetector) (msg : Message) (ctx : Option Ctx)
    (bot : Option FileFetch) (http : HttpRequest → Except Unit String)
    (body content : String) (kvs : List (String × JValue))
    (hen : d.is_enabled ctx = true) (hmc : messageHasContent msg = true)
    (hhttp : http (mkRequest d msg bot) = Except.ok body)
    (hext : extractContent body = some content)
    (hjson : jsonLoads content = some (JValue.obj kvs)) :
    (pyTruthy (objGetD kvs "spam") = false →
       (detect d msg ctx bot http).1 = Except.ok (false, none)) ∧
    (pyTruthy (objGetD kvs "spam") = true →
     d.threshold ≤ safe_confidence (objGetD kvs "confidence") →
       (detect d msg ctx bot http).1 =
         Except.ok (true, some { method := "ai", detector := d.get_name,
                                 confidence := safe_confidence (objGetD kvs "confidence"),
                                 reason := objGetD kvs "reason" })) := by
  have hd := detect_obj_result d msg ctx bot http body content kvs hen hmc hhttp hext hjson
  constructor
  · intro h; rw [hd]
    simp only [h, Bool.false_eq_true, false_and, if_false]
  · intro h1 h2; rw [hd]
    have h : pyTruthy (objGetD kvs "spam") = true ∧
        d.threshold ≤ safe_confidence (objGetD kvs "confidence") := ⟨h1, h2⟩
    simp only [if_pos h]

/-- C6 amended witness: the truthy non-boolean spam string "no" with
confidence 0.9 produces a positive verdict. -/
theorem ai_spam_flag_truthiness_witness :
    (detect dGood msgHello none none httpTruthyNonBool).1 =
      Except.ok (true, some { method := "ai", detector := "AI Detector",
                              confidence := 9/10, reason := JValue.null }) := by
  have h := (ai_spam_flag_truthiness dGood msgHello none none httpTruthyNonBool
    nonBoolSpamBody "\x7b\"spam\": \"no\", \"confidence\": 0.9\x7d"
    [("spam", JValue.str "no"), ("confidence", JValue.num (9/10))]
    (by with_unfolding_all rfl) (by with_unfolding_all rfl) (by with_unfolding_all rfl)
    (by with_unfolding_all rfl) (by with_unfolding_all rfl)).2
    (by with_unfolding_all rfl) (by with_unfolding_all decide)
  exact h.trans (by with_unfolding_all rfl)

/-- Strip lemma: a predicate false at the head and at the last element leaves
the list unchanged. -/
theorem stripBoth_eq_self (p : Char → Bool) (l : List Char)
    (h1 : ∀ c, l.head? = some c → p c = false)
    (h2 : ∀ c, l.getLast? = some c → p c = false) :
    stripBoth p l = l := by
  have hd : l.dropWhile p = l := by
    cases l with
    | nil => rfl
    | cons c tl => exact List.dropWhile_cons_of_neg (by simp [h1 c rfl])
  have hr : l.reverse.dropWhile p = l.reverse := by
    cases hrev : l.reverse with
    | nil => rfl
    | cons c tl =>
      have hc : l.getLast? = some c := by
        rw [← List.head?_reverse, hrev]; rfl
      exact List.dropWhile_cons_of_neg (by simp [h2 c hc])
  unfold stripBoth
  rw [hd, hr, List.reverse_reverse]

/-- Dropping stops immediately on a prefix whose head does not satisfy the
predicate; the prefix and the stopper survive. -/
theorem dropWhile_append_no_hit (p : Char → Bool) (l : List Char) (c : Char) (r : List Char)
    (hl : ∀ x ∈ l, p x = false) (hc : p c = false) :
    List.dropWhile p (l ++ c :: r) = l ++ c :: r := by
  cases l with
  | nil => exact List.dropWhile_cons_of_neg (by simp [hc])
  | cons a tl => exact List.dropWhile_cons_of_neg (by simp [hl a (by simp)])

/-- Stripping every leading and trailing backtick from a fenced block leaves
the tag line, the body and the inner newlines. -/
theorem stripBoth_backtick_fence (tag body : List Char)
    (htag : ∀ x ∈ tag, (x == '`') = false) :
    stripBoth (fun c => c == '`')
        ('`' :: '`' :: '`' :: (tag ++ '\n' :: (body ++ ['\n', '`', '`', '`'])))
      = tag ++ '\n' :: (body ++ ['\n']) := by
  unfold stripBoth
  have h1 : List.dropWhile (fun c => c == '`')
      ('`' :: '`' :: '`' :: (tag ++ '\n' :: (body ++ ['\n', '`', '`', '`'])))
      = tag ++ '\n' :: (body ++ ['\n', '`', '`', '`']) := by
    rw [List.dropWhile_cons_of_pos (by simp), List.dropWhile_cons_of_pos (by simp),
        List.dropWhile_cons_of_pos (by simp)]
    exact dropWhile_append_no_hit _ _ _ _ htag (by simp)
  rw [h1]
  have h2 : (tag ++ '\n' :: (body ++ ['\n', '`', '`', '`'])).reverse
      = '`' :: '`' :: '`' :: '\n' :: (body.reverse ++ '\n' :: tag.reverse) := by
    simp [List.reverse_append]
  rw [h2, List.dropWhile_cons_of_pos (by simp), List.dropWhile_cons_of_pos (by simp),
      List.dropWhile_cons_of_pos (by simp), List.dropWhile_cons_of_neg (by simp)]
  simp [List.reverse_append]

/-- splitOnChar never produces the empty list of groups. -/
theorem splitOnChar_ne_nil (sep : Char) (l : List Char) : splitOnChar sep l ≠ [] := by
  cases l with
  | nil => simp [splitOnChar]
  | cons c tl =>
    simp only [splitOnChar]
    split
    · simp
    · split <;> simp

/-- Splitting at the first separator after a separator-free prefix yields the
prefix as the first group. -/
theorem splitOnChar_append_first (sep : Char) (tag rest : List Char)
    (h : ∀ x ∈ tag, (x == sep) = false) :
    splitOnChar sep (tag ++ sep :: rest) = tag :: splitOnChar sep rest := by
  induction tag with
  | nil => simp [splitOnChar]
  | cons c tl ih =>
    have hc := h c (by simp)
    have ih' := ih (fun x hx => h x (by simp [hx]))
    simp only [List.cons_append, splitOnChar, hc, Bool.false_eq_true, if_false]
    rw [List.append_eq, ih']

/-- joinChar is a left inverse of splitOnChar. -/
theorem joinChar_splitOnChar (sep : Char) (l : List Char) :
    joinChar sep (splitOnChar sep l) = l := by
  induction l with
  | nil => rfl
  | cons c tl ih =>
    rcases hs : splitOnChar sep tl with _ | ⟨g, gs⟩
    · exact absurd hs (splitOnChar_ne_nil sep tl)
    · rw [hs] at ih
      by_cases hc : (c == sep) = true
      · have hceq : c = sep := by simpa using hc
        simp only [splitOnChar, hc, if_true, hs]
        cases gs <;> simp_all [joinChar, hceq]
      · have hc' : (c == sep) = false := by simpa using hc
        simp only [splitOnChar, hc', Bool.false_eq_true, if_false, hs]
        cases gs <;> simp_all [joinChar]

/-- Extraction on a response whose content is the plain string s reaches the
string post-processing step. -/
theorem extractContentJ_respWithContent (s : String) :
    extractContentJ (respWithContent s) = some (postProcessContent s) := rfl

/-- Post-processing a fenced code block strips the fence markers and the
opening language-tag line. -/
theorem postProcess_fenced (tag body : List Char)
    (htagNl : tag.contains '\n' = false) (htagBt : tag.contains '`' = false) :
    postProcessContent (String.mk ('`' :: '`' :: '`' :: (tag ++ '\n' :: (body ++ ['\n', '`', '`', '`']))))
      = String.mk (body ++ ['\n']) := by
  have htagBt' : ∀ x ∈ tag, (x == '`') = false := by
    intro x hx
    have hni : '`' ∉ tag := by simpa using htagBt
    simp [show x ≠ '`' from fun h => hni (h ▸ hx)]
  have htagNl' : ∀ x ∈ tag, (x == '\n') = false := by
    intro x hx
    have hni : '\n' ∉ tag := by simpa using htagNl
    simp [show x ≠ '\n' from fun h => hni (h ▸ hx)]
  unfold postProcessContent
  have hdata : (String.mk ('`' :: '`' :: '`' :: (tag ++ '\n' :: (body ++ ['\n', '`', '`', '`'])))).data
      = '`' :: '`' :: '`' :: (tag ++ '\n' :: (body ++ ['\n', '`', '`', '`'])) := rfl
  rw [hdata]
  have hstrip1 : stripBoth isPyWs ('`' :: '`' :: '`' :: (tag ++ '\n' :: (body ++ ['\n', '`', '`', '`'])))
      = '`' :: '`' :: '`' :: (tag ++ '\n' :: (body ++ ['\n', '`', '`', '`'])) := by
    refine stripBoth_eq_self _ _ (fun c hc => ?_) (fun c hc => ?_)
    · simp only [List.head?_cons, Option.some.injEq] at hc
      subst hc; rfl
    · rw [← List.head?_reverse] at hc
      simp only [List.reverse_cons, List.reverse_append] at hc
      simp at hc
      subst hc; rfl
  rw [hstrip1]
  rw [if_pos (by simp [List.isPrefixOf_iff_prefix])]
  rw [stripBoth_backtick_fence tag body htagBt']
  rw [if_pos (by simp [List.contains_eq_any_beq])]
  rw [splitOnChar_append_first _ _ _ htagNl']
  simp only [List.drop_succ_cons, List.drop_zero]
  rw [joinChar_splitOnChar]

/-- C7: a response whose content is a fenced code block (with an optional
language tag free of backticks and newlines) has the fence markers and the
tag line stripped, leaving the body with its final newline; and the claim's
example object round-trips: the unfenced text, with or without that trailing
newline, parses to the example JSON object. -/
theorem ai_fenced_content_round_trip (tag body : List Char)
    (htagNl : tag.contains '\n' = false) (htagBt : tag.contains '`' = false) :
    extractContentJ (respWithContent (String.mk
        ('`' :: '`' :: '`' :: (tag ++ '\n' :: (body ++ ['\n', '`', '`', '`'])))))
      = some (String.mk (body ++ ['\n'])) ∧
    jsonLoads (String.mk (exBody.data ++ ['\n'])) = some exJson ∧
    jsonLoads exBody = some exJson := by
  refine ⟨?_, by with_unfolding_all rfl, by with_unfolding_all rfl⟩
  rw [extractContentJ_respWithContent, postProcess_fenced tag body htagNl htagBt]

/-- C7 witness: the fenced block with language tag json around the example
object extracts to the example body plus a newline. -/
theorem ai_fenced_content_round_trip_witness :
    extractContentJ (respWithContent (String.mk
        ('`' :: '`' :: '`' :: ("json".data ++ '\n' :: (exBody.data ++ ['\n', '`', '`', '`'])))))
      = some (String.mk (exBody.data ++ ['\n'])) :=
  (ai_fenced_content_round_trip "json".data exBody.data (by with_unfolding_all rfl)
    (by with_unfolding_all rfl)).1

/-- C8: list-shaped message.content concatenates the per-part texts (the text
key first, the content key as per-part fallback, other parts skipped) joined
by newlines; when no textual part exists, or message.content is absent, the
choice-level content or text field is used instead; and the claim's two-part
example concatenates to text that parses as the expected object. -/
theorem ai_list_content_extraction :
    (∀ parts : List JValue, collectPartTexts parts ≠ [] →
       extractContentJ (respWithContentVal (.arr parts))
         = some (postProcessContent (String.intercalate "\n" (collectPartTexts parts)))) ∧
    (∀ (parts : List JValue) (c : Char) (cs : List Char), collectPartTexts parts = [] →
       extractContentJ (.obj [("choices", .arr [.obj
           [("message", .obj [("content", .arr parts)]),
            ("content", .str (String.mk (c :: cs)))]])])
         = some (postProcessContent (String.mk (c :: cs)))) ∧
    (∀ s : String,
       extractContentJ (.obj [("choices", .arr [.obj [("text", .str s)]])])
         = some (postProcessContent s)) ∧
    extractContentJ (respWithContentVal (.arr [.obj [("text", .str "\x7b")],
        .obj [("text", .str "\"spam\": false\x7d")]]))
      = some "\x7b\n\"spam\": false\x7d" ∧
    jsonLoads "\x7b\n\"spam\": false\x7d" = some (.obj [("spam", .bool false)]) := by
  refine ⟨?_, ?_, ?_, by with_unfolding_all rfl, by with_unfolding_all rfl⟩
  · intro parts hp
    rcases hc : collectPartTexts parts with _ | ⟨t, ts⟩
    · exact absurd hc hp
    · show (match
            (match
              (match collectPartTexts parts with
               | [] => JValue.null
               | ts => JValue.str (String.intercalate "\n" ts)) with
             | JValue.null => JValue.null
             | v => v) with
          | JValue.str s => some (postProcessContent s)
          | _ => none) = some (postProcessContent (String.intercalate "\n" (t :: ts)))
      rw [hc]
  · intro parts c cs hc
    show (match
            (match
              (match collectPartTexts parts with
               | [] => JValue.null
               | ts => JValue.str (String.intercalate "\n" ts)) with
             | JValue.null => JValue.str (String.mk (c :: cs))
             | v => v) with
          | JValue.str s => some (postProcessContent s)
          | _ => none) = some (postProcessContent (String.mk (c :: cs)))
    rw [hc]
  · intro s
    rfl

/-- C8 witness: a single text part extracts to its own text. -/
theorem ai_list_content_extraction_witness :
    extractContentJ (respWithContentVal (.arr [.obj [("text", JValue.str "hi")]]))
      = some "hi" := by
  have h := ai_list_content_extraction.1 [.obj [("text", JValue.str "hi")]]
    (by with_unfolding_all decide)
  exact h.trans (by with_unfolding_all rfl)

/-- Congruence: detect only reads the message through the emptiness guard and
the built request. -/
theorem detect_congr_msg (d : OpenAISpamDetector) (ctx : Option Ctx)
    (http : HttpRequest → Except Unit String) (bot1 bot2 : Option FileFetch)
    (msg1 msg2 : Message)
    (h1 : messageHasContent msg1 = messageHasContent msg2)
    (h2 : mkRequest d msg1 bot1 = mkRequest d msg2 bot2) :
    detect d msg1 ctx bot1 http = detect d msg2 ctx bot2 http := by
  unfold detect
  rw [h1, h2]

/-- C9: a failed download of an individual image is silently omitted: detect
behaves exactly as if that attachment were absent (whenever other content
keeps the message past the emptiness guard), and a fetcher failing on every
file is indistinguishable from having no bot, so a fetch failure never aborts
or fails the call. -/
theorem ai_failed_image_fetch_omitted (d : OpenAISpamDetector) (msg : Message) (ctx : Option Ctx)
    (fetch : FileFetch) (http : HttpRequest → Except Unit String) :
    (∀ p : PhotoSize, msg.photo.getLast? = some p → fetch p.file_id = none →
       messageHasContent { msg with photo := [] } = true →
       detect d msg ctx (some fetch) http = detect d { msg with photo := [] } ctx (some fetch) http) ∧
    (∀ doc : Document, msg.document = some doc → docIsImage doc = true → fetch doc.file_id = none →
       messageHasContent { msg with document := none } = true →
       detect d msg ctx (some fetch) http
         = detect d { msg with document := none } ctx (some fetch) http) ∧
    detect d msg ctx (some (fun _ => none)) http = detect d msg ctx none http := by
  refine ⟨?_, ?_, ?_⟩
  · intro p hp hf hmc2
    have hmc1 : messageHasContent msg = true := by
      rcases hph : msg.photo with _ | ⟨q, qs⟩
      · rw [hph] at hp; cases hp
      · simp [messageHasContent, has_images, hph]
    have himg : extract_image_parts (some fetch) msg
        = extract_image_parts (some fetch) { msg with photo := [] } := by
      simp [extract_image_parts, hp, hf]
    exact detect_congr_msg d ctx http _ _ _ _ (by rw [hmc1, hmc2])
      (by simp [mkRequest, pyUserText, himg])
  · intro doc hdoc hdi hf hmc2
    have hmc1 : messageHasContent msg = true := by
      simp [messageHasContent, has_images, hdoc, hdi]
    have himg : extract_image_parts (some fetch) msg
        = extract_image_parts (some fetch) { msg with document := none } := by
      simp [extract_image_parts, hdoc, hdi, hf]
    exact detect_congr_msg d ctx http _ _ _ _ (by rw [hmc1, hmc2])
      (by simp [mkRequest, pyUserText, himg])
  · have h1 : extract_image_parts (some (fun _ => none)) msg = [] := by
      cases hp : msg.photo.getLast? <;> cases hd : msg.document <;>
        simp [extract_image_parts, hp, hd]
    have h2 : extract_image_parts none msg = [] := rfl
    exact detect_congr_msg d ctx http _ _ _ _ rfl
      (by simp only [mkRequest, h1, h2])

/-- C9 witness: with a photo and an image document, a fetcher that fails on
the photo makes detect behave exactly as if the photo were absent. -/
theorem ai_failed_image_fetch_omitted_witness :
    detect dGood msgTwoImages none (some fetchDocOnly) httpSpamAd
      = detect dGood { msgTwoImages with photo := [] } none (some fetchDocOnly) httpSpamAd :=
  (ai_failed_image_fetch_omitted dGood msgTwoImages none fetchDocOnly httpSpamAd).1
    { file_id := "p1" } (by with_unfolding_all rfl) (by with_unfolding_all rfl)
    (by with_unfolding_all rfl)

/-- Once past the eligibility and emptiness guards, detect issues exactly one
request, whatever the HTTP outcome. -/
theorem detect_requests_of_proceed (d : OpenAISpamDetector) (msg : Message) (ctx : Option Ctx)
    (bot : Option FileFetch) (http : HttpRequest → Except Unit String)
    (hen : d.is_enabled ctx = true) (hmc : messageHasContent msg = true) :
    (detect d msg ctx bot http).2 = [mkRequest d msg bot] := by
  simp only [detect, hen, hmc, Bool.not_true, Bool.false_eq_true, if_false]
  repeat (first | rfl | split)

/-- C10: with no bot, an eligible detector and an image-only message (falsy
text and caption), detect does not short-circuit: it issues exactly one HTTP
request, and that request's user message is the single placeholder text block
asking the model to review the attached images, with no image parts. -/
theorem ai_detect_no_bot_placeholder_request (d : OpenAISpamDetector) (msg : Message)
    (ctx : Option Ctx) (http : HttpRequest → Except Unit String)
    (hen : d.is_enabled ctx = true)
    (htext : truthyOptStr msg.text = false) (hcap : truthyOptStr msg.caption = false)
    (himg : has_images msg = true) :
    (detect d msg ctx none http).2 = [mkRequest d msg none] ∧
    (mkRequest d msg none).messages
      = .arr [.obj [("role", .str "system"), ("content", .arr [textBlock system_text])],
              .obj [("role", .str "user"), ("content", .arr [textBlock placeholder_text])]] := by
  have hmc : messageHasContent msg = true := by simp [messageHasContent, himg]
  refine ⟨detect_requests_of_proceed d msg ctx none http hen hmc, ?_⟩
  have hut : pyUserText msg = "" := by simp [pyUserText, htext, hcap]
  show build_messages (pyUserText msg) (extract_image_parts none msg) = _
  rw [hut]
  rfl

/-- C10 witness: the photo-only message with no bot issues one request whose
user content is the single placeholder text block. -/
theorem ai_detect_no_bot_placeholder_request_witness :
    (detect dGood msgPhotoOnly none none httpSpamAd).2 = [mkRequest dGood msgPhotoOnly none] ∧
    (mkRequest dGood msgPhotoOnly none).messages
      = .arr [.obj [("role", .str "system"), ("content", .arr [textBlock system_text])],
              .obj [("role", .str "user"), ("content", .arr [textBlock placeholder_text])]] :=
  ai_detect_no_bot_placeholder_request dGood msgPhotoOnly none httpSpamAd
    (by with_unfolding_all rfl) rfl rfl (by with_unfolding_all rfl)
